import Mathlib

/-!
Shallow embedding of the EcoVoice Analyzer client core (src/src/App.tsx):
the capture state machine, the file-validation gate, the two
request/response lifecycles (analyze, ask), and the result-presentation
derivations. Each definition mirrors one function or JSX fragment of the
source; line numbers in doc comments refer to src/src/App.tsx.
-/

namespace EcoVoice

/-- JS `String.prototype.includes` (substring containment) over char lists. -/
def containsSub (sub : List Char) : List Char → Bool
  | [] => sub.isEmpty
  | c :: t => sub.isPrefixOf (c :: t) || containsSub sub t

/-- `s.includes(sub)` from JS, as used by `file.type.includes('audio')` (line 111). -/
def strIncludes (s sub : String) : Bool :=
  containsSub sub.data s.data

/-- `s.endsWith(suffix)` from JS, as used by `file.name.endsWith('.wav')` (line 111). -/
def strEndsWith (s suffix : String) : Bool :=
  suffix.data.isSuffixOf s.data

/-- JS `String.prototype.toLowerCase` (ASCII case folding suffices for the
severity tiers the source matches on), as used by `severity?.toLowerCase()`
(line 179). -/
def jsToLower (s : String) : String :=
  String.mk (s.data.map Char.toLower)

/-- JS `String.prototype.trim`: drop leading and trailing whitespace
(used by `query.trim()`, line 153). -/
def jsTrim (s : String) : String :=
  String.mk (((s.data.dropWhile Char.isWhitespace).reverse.dropWhile
    Char.isWhitespace).reverse)

/-- A browser `File`: name, declared MIME type, byte size. -/
structure File where
  name : String
  type : String
  size : Nat
deriving DecidableEq, Repr

/-- `LocationInfo` from the `AnalysisResult` interface (lines 10-15). -/
structure LocationInfo where
  latitude : Option String
  longitude : Option String
  address : Option String
  confidence : String
deriving DecidableEq, Repr

/-- The `AnalysisResult` interface (lines 7-23). `raw_cohere_response` is an
opaque pass-through value the core never inspects; modelled as `String`. -/
structure AnalysisResult where
  transcription : String
  recognition_service : String
  location : LocationInfo
  pollution_type : String
  recommendation : String
  responsible_agency : String
  severity_level : Option String
  immediate_actions : Option String
  long_term_solution : Option String
  raw_cohere_response : String
deriving DecidableEq, Repr

/-- One result row: a mapping from column name to scalar-or-null.
A cell is `none` for SQL null, `some s` for the scalar's string rendering. -/
def Row : Type := List (String × Option String)

instance : DecidableEq Row := by unfold Row; infer_instance

/-- The `QueryResult` interface (lines 25-29). -/
structure QueryResult where
  query : String
  sql_query : String
  result : List Row
deriving DecidableEq

/-- The `App` component's state (lines 32-45): the `useState` hooks plus the
mutable refs of the capture layer. `chunks` holds the sizes of collected blobs
(`audioChunksRef`), `mediaRecorder` the stream id the live recorder owns
(`mediaRecorderRef`), `openStreams` the ids of acquired, not-yet-released
hardware streams, and `nextStreamId` a supply of fresh stream ids. -/
structure AppState where
  isRecording : Bool
  audioFile : Option File
  analysisResult : Option AnalysisResult
  queryResult : Option QueryResult
  isAnalyzing : Bool
  isQuerying : Bool
  query : String
  error : Option String
  recordingTime : Nat
  chunks : List Nat
  mediaRecorder : Option Nat
  openStreams : List Nat
  nextStreamId : Nat
deriving DecidableEq

/-- `startRecording` (lines 47-95). `acqOk` is whether
`getUserMedia` resolves (grants a stream) or rejects. On success a fresh
stream is acquired, a recorder is created over it, the chunk buffer is
cleared, the elapsed-time counter resets to 0, recording is flagged and the
error slot cleared. On failure only the error message is set (line 92).
The function body has no guard on `isRecording`. -/
def startRecording (acqOk : Bool) (st : AppState) : AppState :=
  if acqOk then
    { st with
      openStreams := st.nextStreamId :: st.openStreams
      nextStreamId := st.nextStreamId + 1
      mediaRecorder := some st.nextStreamId
      chunks := []
      recordingTime := 0
      isRecording := true
      error := none }
  else
    { st with error := some "Failed to access microphone. Please check permissions and try again." }

/-- `stopRecording` (lines 97-106) composed with the recorder's `onstop`
callback (lines 71-80): guarded by `mediaRecorderRef.current && isRecording`;
when it fires, the collected chunks are flattened into a WAV-typed file named
from the current timestamp `now`, that file becomes the current audio file,
and the recorder's stream tracks are stopped (the stream is released). -/
def stopRecording (now : Nat) (st : AppState) : AppState :=
  match st.mediaRecorder with
  | none => st
  | some rid =>
    if st.isRecording then
      { st with
        isRecording := false
        audioFile := some { name := "pollution-report-" ++ toString now ++ ".wav"
                            type := "audio/wav"
                            size := st.chunks.sum }
        openStreams := st.openStreams.erase rid }
    else st

/-- The record button (line 255): `onClick={isRecording ? stopRecording : startRecording}`. -/
def clickRecord (acqOk : Bool) (now : Nat) (st : AppState) : AppState :=
  if st.isRecording then stopRecording now st else startRecording acqOk st

/-- The file-type gate inside `handleFileUpload` (line 111):
`file.type.includes('audio') || file.name.endsWith('.wav')`. -/
def isAudioAccepted (f : File) : Bool :=
  strIncludes f.type "audio" || strEndsWith f.name ".wav"

/-- `handleFileUpload` (lines 108-118). `file` is `event.target.files?.[0]`. -/
def handleFileUpload (file : Option File) (st : AppState) : AppState :=
  match file with
  | none => st
  | some f =>
    if isAudioAccepted f then
      { st with audioFile := some f, error := none }
    else
      { st with error := some "Please select a valid audio file (.wav, .mp3, .m4a)" }

/-- The synchronous prefix of `analyzeAudio` (lines 120-134): the early
return when no audio file is staged, otherwise flag pending, clear the error
slot and the previous result, and issue the multipart POST. The second
component counts the network requests issued by this invocation. -/
def analyzeAudioStart (st : AppState) : AppState × Nat :=
  if st.audioFile.isSome then
    ({ st with isAnalyzing := true, error := none, analysisResult := none }, 1)
  else (st, 0)

/-- The Analyze button (lines 321-324): `onClick={analyzeAudio}` with
`disabled={!audioFile || isAnalyzing}`; a click on a disabled button never
reaches the handler. -/
def clickAnalyze (st : AppState) : AppState × Nat :=
  if st.audioFile.isNone || st.isAnalyzing then (st, 0)
  else analyzeAudioStart st

/-- Parse outcome of a non-success response body (line 137):
`response.json()` either yields an object with an optional `detail` field, or
rejects, in which case `.catch` substitutes `{ detail: 'Unknown error' }`. -/
inductive ErrBody where
  | parsed (detail : Option String)
  | unparseable
deriving DecidableEq

/-- Outcome of one `fetch` round trip as the handlers observe it:
transport success whose body either JSON-parses to a payload or rejects with
a parse-failure message; a non-success status with its body; or a rejected
fetch (network failure) with the exception message. -/
inductive FetchResult (α : Type) where
  | httpOk (body : Except String α)
  | httpError (status : Nat) (body : ErrBody)
  | network (msg : String)

/-- JS truthiness fallback `errorData.detail || fallback` over an optional
string-valued `detail` (both a missing field and an empty string are falsy). -/
def jsOrElse (d : Option String) (fallback : String) : String :=
  match d with
  | some s => if s.isEmpty then fallback else s
  | none => fallback

/-- The message of the error thrown for a non-success status (lines 136-139):
`errorData.detail || "Server error: " + response.status`, where a body that
failed to parse was replaced by `{ detail: 'Unknown error' }`. -/
def transportErrMsg (status : Nat) (b : ErrBody) : String :=
  match b with
  | .parsed d => jsOrElse d ("Server error: " ++ toString status)
  | .unparseable => "Unknown error"

/-- The suffix appended to every caught error message (lines 145 and 171). -/
def backendHint : String := ". Please ensure the backend server is running."

/-- The continuation of `analyzeAudio` after the fetch resolves
(lines 136-149): on a parsed OK body store the result; on any throw (error
status, OK body that fails to parse, or network failure) set the error slot
to the exception message suffixed with the backend hint; the `finally` block
always clears the pending flag. -/
def analyzeComplete (st : AppState) (resp : FetchResult AnalysisResult) : AppState :=
  match resp with
  | .httpOk (.ok r) => { st with analysisResult := some r, isAnalyzing := false }
  | .httpOk (.error m) => { st with error := some (m ++ backendHint), isAnalyzing := false }
  | .httpError status b =>
      { st with error := some (transportErrMsg status b ++ backendHint), isAnalyzing := false }
  | .network m => { st with error := some (m ++ backendHint), isAnalyzing := false }

/-- One full `analyzeAudio` invocation (lines 120-150): the guard, the
synchronous start, then the response continuation when a request was issued. -/
def analyzeRun (st : AppState) (resp : FetchResult AnalysisResult) : AppState :=
  if st.audioFile.isSome then
    analyzeComplete { st with isAnalyzing := true, error := none, analysisResult := none } resp
  else st

/-- The synchronous prefix of `askQuestion` (lines 152-160): early return
when the trimmed question is empty, otherwise flag pending, clear the error
slot and the previous query result, and issue the GET. The second component
counts the network requests issued by this invocation. -/
def askStart (st : AppState) : AppState × Nat :=
  if (jsTrim st.query).isEmpty then (st, 0)
  else ({ st with isQuerying := true, error := none, queryResult := none }, 1)

/-- The continuation of `askQuestion` after the fetch resolves
(lines 162-175), identical in shape to `analyzeComplete` but affecting
`queryResult` and `isQuerying`. -/
def askComplete (st : AppState) (resp : FetchResult QueryResult) : AppState :=
  match resp with
  | .httpOk (.ok r) => { st with queryResult := some r, isQuerying := false }
  | .httpOk (.error m) => { st with error := some (m ++ backendHint), isQuerying := false }
  | .httpError status b =>
      { st with error := some (transportErrMsg status b ++ backendHint), isQuerying := false }
  | .network m => { st with error := some (m ++ backendHint), isQuerying := false }

/-- One full `askQuestion` invocation (lines 152-176). -/
def askRun (st : AppState) (resp : FetchResult QueryResult) : AppState :=
  if (jsTrim st.query).isEmpty then st
  else askComplete { st with isQuerying := true, error := none, queryResult := none } resp

/-- `getSeverityColor` (lines 178-186): a switch on
`severity?.toLowerCase()` with a gray default; written as the switch's
sequential case comparisons. -/
def getSeverityColor (severity : Option String) : String :=
  let sev := severity.map jsToLower
  if sev = some "low" then "text-green-700 bg-green-100 border-green-300"
  else if sev = some "medium" then "text-yellow-700 bg-yellow-100 border-yellow-300"
  else if sev = some "high" then "text-orange-700 bg-orange-100 border-orange-300"
  else if sev = some "critical" then "text-red-700 bg-red-100 border-red-300"
  else "text-gray-700 bg-gray-100 border-gray-300"

/-- `formatTime` (lines 188-192). -/
def formatTime (seconds : Nat) : String :=
  let mins := seconds / 60
  let secs := seconds % 60
  mins.repr ++ ":" ++ (String.mk (List.replicate (2 - secs.repr.length) '0') ++ secs.repr)

/-- `clearResults` (lines 194-200). -/
def clearResults (st : AppState) : AppState :=
  { st with
    analysisResult := none
    queryResult := none
    error := none
    audioFile := none
    query := "" }

/-- The rows the query-results table body renders (line 574):
`queryResult.result.slice(0, 10)`. -/
def renderedRows (rows : List Row) : List Row :=
  rows.take 10

/-- The table's footer note (lines 585-589): present exactly when more than
10 rows were received, and stating the total row count. -/
def footerNote (rows : List Row) : Option String :=
  if rows.length > 10 then
    some ("Showing first 10 of " ++ toString rows.length ++ " results")
  else none

/-! Concrete fixtures used by witnesses and counterexamples. -/

/-- The component's initial state (the `useState` initial values, lines 32-40). -/
def st0 : AppState :=
  { isRecording := false
    audioFile := none
    analysisResult := none
    queryResult := none
    isAnalyzing := false
    isQuerying := false
    query := ""
    error := none
    recordingTime := 0
    chunks := []
    mediaRecorder := none
    openStreams := []
    nextStreamId := 0 }

/-- A well-typed audio upload. -/
def reportWav : File := { name := "report.wav", type := "audio/wav", size := 2048 }

/-- A non-audio upload. -/
def notesTxt : File := { name := "notes.txt", type := "text/plain", size := 100 }

/-- An `.mp3` file whose declared MIME type does not indicate audio. -/
def songMp3 : File := { name := "song.mp3", type := "application/octet-stream", size := 4096 }

/-- A mid-recording state: one stream acquired, recorder live over it. -/
def recState : AppState :=
  { st0 with
    isRecording := true
    mediaRecorder := some 0
    openStreams := [0]
    nextStreamId := 1
    recordingTime := 5
    chunks := [800, 900] }

/-- A state with a staged audio file, ready to analyze. -/
def stReady : AppState := { st0 with audioFile := some reportWav }

/-- A state with a staged audio file and an analysis request in flight. -/
def stPending : AppState := { st0 with audioFile := some reportWav, isAnalyzing := true }

/-- A state holding a prior asset and a prior error message. -/
def stDirty : AppState :=
  { st0 with audioFile := some songMp3, error := some "old failure" }

/-- A state satisfying both orchestrators' preconditions. -/
def stBoth : AppState :=
  { st0 with audioFile := some reportWav, query := "how many reports" }

/-- A state with no staged file and a whitespace-only question. -/
def stBlank : AppState := { st0 with query := "   " }

/-- Fifteen identical single-column rows. -/
def rows15 : List Row := List.replicate 15 [("id", some "1")]

/-- Well-formedness of the capture layer: no stream is held while idle, and
while recording the live recorder holds exactly the one open stream. -/
def CaptureWF (st : AppState) : Prop :=
  (st.isRecording = false → st.openStreams = []) ∧
  (st.isRecording = true →
    st.mediaRecorder.isSome = true ∧ st.openStreams = st.mediaRecorder.toList)

instance (st : AppState) : Decidable (CaptureWF st) := by
  unfold CaptureWF; infer_instance

/-! Claim theorems. -/

/-- C1: while an analysis request is pending, invoking analyze (the Analyze
button, whose `disabled` guard is the code's re-entrancy protection) is
ignored rather than queued: the state is unchanged and no request is issued;
two invocations in quick succession from a ready state issue exactly one
network request, the second changing no state. -/
theorem analyze_reentrant_ignored (st : AppState) :
    (st.isAnalyzing = true → clickAnalyze st = (st, 0)) ∧
    (st.isAnalyzing = false → st.audioFile.isSome = true →
      ((clickAnalyze st).2 = 1 ∧
       clickAnalyze (clickAnalyze st).1 = ((clickAnalyze st).1, 0))) := by
  constructor
  · intro h
    simp [clickAnalyze, h]
  · intro h hf
    obtain ⟨f, hx⟩ := Option.isSome_iff_exists.mp hf
    constructor
    · simp [clickAnalyze, analyzeAudioStart, hx, h]
    · simp [clickAnalyze, analyzeAudioStart, hx, h]

/-- C1 witness: a pending invocation is a no-op, and from a concrete ready
state two successive invocations issue exactly one request. -/
theorem analyze_reentrant_ignored_witness :
    clickAnalyze stPending = (stPending, 0) ∧
    ((clickAnalyze stReady).2 = 1 ∧
     clickAnalyze (clickAnalyze stReady).1 = ((clickAnalyze stReady).1, 0)) :=
  ⟨(analyze_reentrant_ignored stPending).1 rfl,
   (analyze_reentrant_ignored stReady).2 rfl (by decide)⟩

/-- C6: clearing results empties the analysis result, the query result, the
error slot, the staged audio file and the question text, and leaves every
capture-session component (recording flag, chunks, elapsed time, recorder,
open streams) and both pending flags untouched. -/
theorem clearResults_spec (st : AppState) :
    (clearResults st).analysisResult = none ∧
    (clearResults st).queryResult = none ∧
    (clearResults st).error = none ∧
    (clearResults st).audioFile = none ∧
    (clearResults st).query = "" ∧
    (clearResults st).isRecording = st.isRecording ∧
    (clearResults st).chunks = st.chunks ∧
    (clearResults st).recordingTime = st.recordingTime ∧
    (clearResults st).mediaRecorder = st.mediaRecorder ∧
    (clearResults st).openStreams = st.openStreams ∧
    (clearResults st).isAnalyzing = st.isAnalyzing ∧
    (clearResults st).isQuerying = st.isQuerying :=
  ⟨rfl, rfl, rfl, rfl, rfl, rfl, rfl, rfl, rfl, rfl, rfl, rfl⟩

/-- C7: the severity derivation maps (case-insensitively) low to the green
"positive" classes, medium to the yellow "caution" classes, high to the
orange "warning" classes, critical to the red "danger" classes, and
everything else — including an absent severity — to the gray "neutral"
classes. -/
theorem getSeverityColor_spec (s : String) :
    (jsToLower s = "low" →
      getSeverityColor (some s) = "text-green-700 bg-green-100 border-green-300") ∧
    (jsToLower s = "medium" →
      getSeverityColor (some s) = "text-yellow-700 bg-yellow-100 border-yellow-300") ∧
    (jsToLower s = "high" →
      getSeverityColor (some s) = "text-orange-700 bg-orange-100 border-orange-300") ∧
    (jsToLower s = "critical" →
      getSeverityColor (some s) = "text-red-700 bg-red-100 border-red-300") ∧
    (jsToLower s ≠ "low" → jsToLower s ≠ "medium" → jsToLower s ≠ "high" →
      jsToLower s ≠ "critical" →
      getSeverityColor (some s) = "text-gray-700 bg-gray-100 border-gray-300") ∧
    getSeverityColor none = "text-gray-700 bg-gray-100 border-gray-300" := by
  refine ⟨?_, ?_, ?_, ?_, ?_, rfl⟩ <;> intro h
  · simp [getSeverityColor, h]
  · simp [getSeverityColor, h]
  · simp [getSeverityColor, h]
  · simp [getSeverityColor, h]
  · intro h2 h3 h4
    simp [getSeverityColor, h, h2, h3, h4]

/-- C7 witness: an upper-cased severity tier maps like its lower-cased form. -/
theorem getSeverityColor_spec_witness :
    getSeverityColor (some "CRITICAL") = "text-red-700 bg-red-100 border-red-300" :=
  (getSeverityColor_spec "CRITICAL").2.2.2.1 (by decide)

/-- C10: with the precondition violated — no staged audio file for analyze,
or a question whose trimmed text is empty for ask — the invocation returns
immediately: no network request is issued and the state is unchanged (so the
pending flag is never set and error and results are untouched). -/
theorem precondition_noop (st : AppState) :
    (st.audioFile = none → analyzeAudioStart st = (st, 0)) ∧
    ((jsTrim st.query).isEmpty = true → askStart st = (st, 0)) := by
  constructor
  · intro h
    simp [analyzeAudioStart, h]
  · intro h
    simp [askStart, h]

/-- C10 witness: from a state with no file and a whitespace-only question,
both entry points are complete no-ops. -/
theorem precondition_noop_witness :
    analyzeAudioStart stBlank = (stBlank, 0) ∧ askStart stBlank = (stBlank, 0) :=
  ⟨(precondition_noop stBlank).1 rfl, (precondition_noop stBlank).2 (by decide)⟩

/-- C2 counterexample: the `startRecording` handler has no guard on the
recording flag, so invoked while already Recording it acquires a second
hardware stream and resets the session (the claim said start while Recording
is a no-op that never double-acquires a stream). -/
theorem startRecording_while_recording_cex :
    recState.isRecording = true ∧
    (startRecording true recState).openStreams.length = 2 ∧
    (startRecording true recState).recordingTime = 0 ∧
    recState.recordingTime = 5 ∧
    startRecording true recState ≠ recState := by decide

/-- C2 (amended): stop while Idle is a no-op (state unchanged, nothing
thrown); and along the record button — which dispatches stop, not start,
while Recording — the single-stream well-formedness is preserved, so at most
one hardware stream is ever open. -/
theorem capture_commands (st : AppState) (now : Nat) (acqOk : Bool) :
    (st.isRecording = false → stopRecording now st = st) ∧
    (CaptureWF st →
      CaptureWF (clickRecord acqOk now st) ∧
      (clickRecord acqOk now st).openStreams.length ≤ 1) := by
  constructor
  · intro h
    cases hm : st.mediaRecorder with
    | none => simp [stopRecording, hm]
    | some rid => simp [stopRecording, hm, h]
  · rintro ⟨h1, h2⟩
    cases hrec : st.isRecording with
    | false =>
      have hos := h1 hrec
      cases hacq : acqOk with
      | true =>
        have hc : clickRecord true now st =
            { st with
              openStreams := st.nextStreamId :: st.openStreams
              nextStreamId := st.nextStreamId + 1
              mediaRecorder := some st.nextStreamId
              chunks := []
              recordingTime := 0
              isRecording := true
              error := none } := by
          simp [clickRecord, hrec, startRecording]
        rw [hc, hos]
        refine ⟨?_, by simp⟩
        unfold CaptureWF
        exact ⟨fun h => Bool.noConfusion h, fun _ => ⟨rfl, rfl⟩⟩
      | false =>
        have hc : clickRecord false now st =
            { st with error := some "Failed to access microphone. Please check permissions and try again." } := by
          simp [clickRecord, hrec, startRecording]
        rw [hc, hos]
        refine ⟨⟨fun _ => rfl, fun h => ?_⟩, by simp⟩
        have hx : st.isRecording = true := h
        rw [hrec] at hx
        cases hx
    | true =>
      obtain ⟨hsome, heq⟩ := h2 hrec
      cases hm : st.mediaRecorder with
      | none => rw [hm] at hsome; cases hsome
      | some rid =>
        rw [hm] at heq
        have hc : clickRecord acqOk now st =
            { st with
              isRecording := false
              audioFile := some { name := "pollution-report-" ++ toString now ++ ".wav"
                                  type := "audio/wav"
                                  size := st.chunks.sum }
              openStreams := st.openStreams.erase rid } := by
          simp [clickRecord, hrec, stopRecording, hm]
        rw [hc, heq]
        simp [CaptureWF, List.erase_cons_head]

/-- C2 witness: stop while Idle leaves the initial state intact, and from a
concrete well-formed recording state a button press keeps at most one
stream open. -/
theorem capture_commands_witness :
    stopRecording 42 st0 = st0 ∧
    (clickRecord true 7 recState).openStreams.length ≤ 1 :=
  ⟨(capture_commands st0 42 true).1 rfl,
   ((capture_commands recState 7 true).2 (by decide)).2⟩

/-- C3: evaluation of the validator at the claim's own example: a file named
`song.mp3` whose declared type does not indicate audio is rejected — the
error slot is set to the validation message (which itself lists `.mp3` and
`.m4a` as valid) and the staged asset is unchanged — although the spec says
`.mp3` and `.m4a` are recognized extensions and the file must be accepted. -/
theorem mp3_upload_rejected :
    isAudioAccepted songMp3 = false ∧
    strEndsWith songMp3.name ".mp3" = true ∧
    handleFileUpload (some songMp3) st0 =
      { st0 with error := some "Please select a valid audio file (.wav, .mp3, .m4a)" } := by
  decide

/-- C4 counterexample: when a non-success response's body fails to parse,
the resulting error message is the substituted "Unknown error", which
neither mentions "Server error" nor the status 500 — the claim said the
fallback is a generic "server error <status>" message. -/
theorem transport_parse_failure_cex :
    (analyzeRun stReady (.httpError 500 .unparseable)).error =
      some "Unknown error. Please ensure the backend server is running." ∧
    strIncludes "Unknown error. Please ensure the backend server is running."
      "Server error" = false ∧
    strIncludes (jsToLower "Unknown error. Please ensure the backend server is running.")
      "server error" = false ∧
    strIncludes "Unknown error. Please ensure the backend server is running."
      "500" = false := by
  decide

/-- C4 (amended): on a non-success HTTP status the pending flag returns to
false, the analysis result remains absent, and the error slot holds the
thrown message suffixed with the backend-unreachable hint, where that
message is the server-supplied detail when the body parses with a nonempty
detail, the generic "Server error: <status>" when the body parses without a
usable detail, and the substituted "Unknown error" when body parsing fails. -/
theorem analyze_transport_failure (st : AppState) (status : Nat) (b : ErrBody)
    (hfile : st.audioFile.isSome = true) :
    (analyzeRun st (.httpError status b)).isAnalyzing = false ∧
    (analyzeRun st (.httpError status b)).analysisResult = none ∧
    (analyzeRun st (.httpError status b)).error =
      some (transportErrMsg status b ++ backendHint) ∧
    (∀ d, b = .parsed (some d) → d.isEmpty = false →
      (analyzeRun st (.httpError status b)).error = some (d ++ backendHint)) ∧
    ((b = .parsed none ∨ b = .parsed (some "")) →
      (analyzeRun st (.httpError status b)).error =
        some ("Server error: " ++ toString status ++ backendHint)) ∧
    (b = .unparseable →
      (analyzeRun st (.httpError status b)).error =
        some ("Unknown error" ++ backendHint)) := by
  refine ⟨?_, ?_, ?_, ?_, ?_, ?_⟩
  · simp [analyzeRun, hfile, analyzeComplete]
  · simp [analyzeRun, hfile, analyzeComplete]
  · simp [analyzeRun, hfile, analyzeComplete]
  · intro d hb hd
    subst hb
    simp [analyzeRun, hfile, analyzeComplete, transportErrMsg, jsOrElse, hd]
  · intro hb
    rcases hb with hb | hb
    · subst hb
      simp [analyzeRun, hfile, analyzeComplete, transportErrMsg, jsOrElse]
    · subst hb
      simp [analyzeRun, hfile, analyzeComplete, transportErrMsg, jsOrElse]
      rfl
  · intro hb
    subst hb
    simp [analyzeRun, hfile, analyzeComplete, transportErrMsg]

/-- C4 witness: a mocked 500 with a parsed detail "model unavailable" yields
that detail suffixed with the backend hint. -/
theorem analyze_transport_failure_witness :
    (analyzeRun stBoth (.httpError 500 (.parsed (some "model unavailable")))).error =
      some ("model unavailable" ++ backendHint) :=
  (analyze_transport_failure stBoth 500 (.parsed (some "model unavailable"))
    (by decide)).2.2.2.1 "model unavailable" rfl (by decide)

/-- C5 counterexample: with 15 received rows the footer reads
"Showing first 10 of 15 results" — it states the total, and the claimed
"5 more" count appears nowhere in it. -/
theorem footer_shows_total_not_more_cex :
    footerNote rows15 = some "Showing first 10 of 15 results" ∧
    strIncludes "Showing first 10 of 15 results" "5 more" = false := by
  decide

/-- C5 (amended): at most the first 10 rows are rendered, in their received
order (a prefix of the row sequence); when the total exceeds 10 the footer
states the total row count as "Showing first 10 of <n> results", and
otherwise no footer is shown. -/
theorem table_truncation (rows : List Row) :
    (renderedRows rows).length ≤ 10 ∧
    renderedRows rows <+: rows ∧
    (rows.length > 10 →
      footerNote rows = some ("Showing first 10 of " ++ toString rows.length ++ " results")) ∧
    (rows.length ≤ 10 → footerNote rows = none) := by
  refine ⟨?_, ?_, ?_, ?_⟩
  · simp [renderedRows]
  · exact List.take_prefix 10 rows
  · intro h
    simp [footerNote, h]
  · intro h
    simp [footerNote]
    omega

/-- C5 witness: for the 15-row fixture, 10 rows render and the footer names
the total of 15. -/
theorem table_truncation_witness :
    footerNote rows15 = some ("Showing first 10 of " ++ toString rows15.length ++ " results") :=
  (table_truncation rows15).2.2.1 (by decide)

/-- C8: when the validator accepts, the selected file becomes the staged
audio asset — replacing any prior one — and any prior error is cleared; when
it rejects, the staged asset is untouched, the error slot is set to the
validation message, and nothing else changes (the rejected file is never
coerced into an asset). -/
theorem handleFileUpload_spec (f : File) (st : AppState) :
    (isAudioAccepted f = true →
      handleFileUpload (some f) st = { st with audioFile := some f, error := none }) ∧
    (isAudioAccepted f = false →
      (handleFileUpload (some f) st).audioFile = st.audioFile ∧
      handleFileUpload (some f) st =
        { st with error := some "Please select a valid audio file (.wav, .mp3, .m4a)" }) := by
  constructor
  · intro h
    simp [handleFileUpload, h]
  · intro h
    simp [handleFileUpload, h]

/-- C8 witness: from a state holding a prior asset and a stale error,
accepting `report.wav` replaces the asset and clears the error, while
rejecting `notes.txt` leaves the prior asset in place. -/
theorem handleFileUpload_spec_witness :
    handleFileUpload (some reportWav) stDirty =
      { stDirty with audioFile := some reportWav, error := none } ∧
    (handleFileUpload (some notesTxt) stDirty).audioFile = stDirty.audioFile :=
  ⟨(handleFileUpload_spec reportWav stDirty).1 (by decide),
   ((handleFileUpload_spec notesTxt stDirty).2 (by decide)).1⟩

/-- C9: a transport-success response whose body fails JSON parsing is
handled like a failure rather than crashing: for both analyze and ask the
error slot gets the parse-failure message suffixed with the backend hint,
the corresponding result stays absent, and the pending flag returns to
false. -/
theorem ok_body_parse_failure (st : AppState) (m : String) :
    (st.audioFile.isSome = true →
      (analyzeRun st (.httpOk (.error m))).error = some (m ++ backendHint) ∧
      (analyzeRun st (.httpOk (.error m))).analysisResult = none ∧
      (analyzeRun st (.httpOk (.error m))).isAnalyzing = false) ∧
    ((jsTrim st.query).isEmpty = false →
      (askRun st (.httpOk (.error m))).error = some (m ++ backendHint) ∧
      (askRun st (.httpOk (.error m))).queryResult = none ∧
      (askRun st (.httpOk (.error m))).isQuerying = false) := by
  constructor
  · intro h
    simp [analyzeRun, h, analyzeComplete]
  · intro h
    simp [askRun, h, askComplete]

/-- C9 witness: on a concrete state with both preconditions met, a JSON
parse failure after an OK response sets the hinted error for analyze and
leaves the query result absent for ask. -/
theorem ok_body_parse_failure_witness :
    (analyzeRun stBoth (.httpOk (.error "Unexpected end of JSON input"))).error =
      some ("Unexpected end of JSON input" ++ backendHint) ∧
    (askRun stBoth (.httpOk (.error "Unexpected end of JSON input"))).queryResult = none :=
  ⟨((ok_body_parse_failure stBoth "Unexpected end of JSON input").1 (by decide)).1,
   ((ok_body_parse_failure stBoth "Unexpected end of JSON input").2 (by decide)).2.1⟩

end EcoVoice
